import Mathlib

/-!
A shallow embedding of the core of the `rusty_nes` emulator (files
`src/cart.rs`, `src/system.rs`, `src/cpu.rs`) together with proofs about
its bus routing, cartridge loading and CPU instruction semantics.

Modelling conventions:
* Machine integers (`u8`, `u16`, `i16`, ...) are embedded as `Nat` (or `Int`
  for signed intermediates), with an explicit `% 256` / `% 65536` wherever
  the Rust arithmetic can wrap.  Wrapping (release-build) semantics is used
  throughout; the project documentation itself describes the stack-pointer
  arithmetic as wrapping modulo 256.
* Fallible operations (array indexing out of bounds, `panic!` branches,
  "Unknown opcode" dispatch failures) are embedded in the `Option` monad:
  `none` is a panic.
* Scratch RAM (a `Box<[u8; 0x800]>`) is embedded as a function `Nat → Nat`
  updated pointwise on writes.
* The CPU's `debug_state`/`debug_enabled` fields and the `debug_opcode`
  helpers only produce trace output (strings); they do not affect the
  registers, flags, memory or clock, and are omitted from the state.
* `PPU::read_address` is declared `&mut self` in `ppu.rs` but is invoked
  through the shared receiver of `System::read_byte (&self)`; here bus reads
  are pure and return the status value that `read_address` computes.
-/

/-- Two's-complement bit pattern of a signed 16-bit intermediate, as a `Nat`
(the effect of Rust's `as u16` cast on an `i16`). -/
def i16_bits (i : Int) : Nat := (i % 65536).toNat

/-- Rust's `as i8` reinterpretation of a byte (`u8 as i8`). -/
def i8_of_byte (b : Nat) : Int := if b < 128 then (b : Int) else (b : Int) - 256

/-- `src/ppu.rs`: the PPU state (`clock`, `in_vblank`). -/
structure PPU where
  clock : Nat
  in_vblank : Bool

/-- `src/ppu.rs`: `PPU::new`. -/
def PPU.new : PPU := { clock := 0, in_vblank := false }

/-- `src/ppu.rs`: the status byte computed by `PPU::read_address`
(bit 7 = vblank flag). -/
def PPU.read_address (ppu : PPU) (_address : Nat) : Nat :=
  let status := 0
  let status := if ppu.in_vblank then status ||| 0x80 else status
  status

/-- `src/apu.rs`: the APU has no state. -/
structure APU where

/-- `src/apu.rs`: `APU::read_address` always returns 0. -/
def APU.read_address (_apu : APU) (_address : Nat) : Nat := 0

/-- `src/cart.rs`: the `Mirroring` enum. -/
inductive Mirroring
  | HorizontalOrMapperControlled
  | Vertical
deriving DecidableEq

/-- `src/cart.rs`: the `CartLoadError` enum (the `IoError` payload is
irrelevant to the parsing logic modelled here). -/
inductive CartLoadError
  | FileNotARom
  | FileNotFound
  | IoError
deriving DecidableEq

/-- `src/cart.rs`: the `Cart` structure. -/
structure Cart where
  prg_rom : Nat
  chr_rom : Nat
  mirroring : Mirroring
  battery_present : Bool
  trainer_present : Bool
  hard_wired_four_screen_mode : Bool
  mapper : Nat
  prg_rom_pages : List (List Nat)
  chr_rom_pages : List (List Nat)
deriving DecidableEq

/-- The inner loop of `load_to_cart` that builds one page: pushes
`contents[start + offset]` for `offset` in `0..size`.  `none` models the
out-of-bounds indexing panic. -/
def slice_page (contents : List Nat) (start : Nat) : Nat → Option (List Nat)
  | 0 => some []
  | n + 1 =>
    (slice_page contents start n).bind fun rest =>
      (contents[start + n]?).map fun b => rest ++ [b]

/-- The outer loop of `load_to_cart` that builds `count` pages of `size`
bytes each, page `p` starting at byte `start + p * size`. -/
def collect_pages (contents : List Nat) (start size : Nat) :
    Nat → Option (List (List Nat))
  | 0 => some []
  | c + 1 =>
    (collect_pages contents start size c).bind fun rest =>
      (slice_page contents (start + c * size) size).map fun page => rest ++ [page]

/-- `src/cart.rs`: `load_to_cart`, from the point where the file contents
have been read into the byte buffer `contents` (the `File::open` /
`read_to_end` prelude, which produces `FileNotFound` / `IoError`, is I/O and
is not modelled).  `none` models an indexing panic; `some (Except.error e)`
models `Err(e)`; `some (Except.ok c)` models `Ok(c)`. -/
def load_to_cart (contents : List Nat) : Option (Except CartLoadError Cart) :=
  -- `&contents[0..3] != b"NES"`: slicing panics when the buffer is shorter
  -- than 3 bytes; `contents[3]` is only evaluated when the slice matches.
  if contents.length < 3 then none
  else if contents.take 3 ≠ [0x4e, 0x45, 0x53] then
    some (Except.error CartLoadError.FileNotARom)
  else
    (contents[3]?).bind fun b3 =>
    if b3 ≠ 0x1a then some (Except.error CartLoadError.FileNotARom)
    else
      (contents[4]?).bind fun prg_rom =>
      (contents[5]?).bind fun chr_rom =>
      (contents[6]?).bind fun b6 =>
      let mirroring := match b6 &&& 0x1 with
        | 0 => Mirroring.HorizontalOrMapperControlled
        | 1 => Mirroring.Vertical
        | _ => Mirroring.HorizontalOrMapperControlled
      let battery_present := b6 &&& 0x2 == 0x2
      let trainer_present := b6 &&& 0x3 == 0x3
      let hard_wired_four_screen_mode := b6 &&& 0x4 == 0x4
      (contents[7]?).bind fun b7 =>
      let mapper := (b6 >>> 4) + (b7 &&& 0xf0)
      let prg_rom_page_size := 16 * 1024
      (collect_pages contents 16 prg_rom_page_size prg_rom).bind fun prg_rom_pages =>
      let current_start := 16 + prg_rom_page_size * prg_rom
      let chr_rom_page_size := 8 * 1024
      (collect_pages contents current_start chr_rom_page_size chr_rom).bind fun chr_rom_pages =>
      some (Except.ok
        { prg_rom, chr_rom, mirroring, battery_present, trainer_present,
          hard_wired_four_screen_mode, mapper, prg_rom_pages, chr_rom_pages })

/-- `src/system.rs`: the `System` bus (scratch RAM, PPU, APU, cartridge). -/
structure System where
  scratch_ram : Nat → Nat
  ppu : PPU
  apu : APU
  cart : Cart

/-- `src/system.rs`: `System::read_mapper_byte`.  The final branch is
`panic!("Cannot read byte ... from mapper")`, i.e. `none`; indexing a
missing or short page is likewise a panic. -/
def System.read_mapper_byte (sys : System) (address : Nat) : Option Nat :=
  if 0x8000 ≤ address ∧ address ≤ 0xbfff then
    (sys.cart.prg_rom_pages[0]?).bind fun page => page[address - 0x8000]?
  else if 0xc000 ≤ address then
    (sys.cart.prg_rom_pages[sys.cart.prg_rom_pages.length - 1]?).bind fun page =>
      page[address - 0xc000]?
  else
    none

/-- `src/system.rs`: `System::read_byte` address routing. -/
def System.read_byte (sys : System) (address : Nat) : Option Nat :=
  if address < 0x2000 then
    some (sys.scratch_ram (address &&& 0x7ff))
  else if address < 0x4000 then
    some (sys.ppu.read_address address)
  else if address < 0x4020 then
    some (sys.apu.read_address address)
  else
    sys.read_mapper_byte address

/-- `src/system.rs`: `System::write_mapper_byte` is a no-op. -/
def System.write_mapper_byte (sys : System) (_address _value : Nat) : System :=
  sys

/-- `src/system.rs`: `System::write_byte`.  PPU and APU `write_address` are
no-ops, so only the scratch-RAM branch changes state; writes never panic. -/
def System.write_byte (sys : System) (address value : Nat) : System :=
  if address < 0x2000 then
    { sys with scratch_ram :=
        fun i => if i = (address &&& 0x7ff) then value else sys.scratch_ram i }
  else if address < 0x4000 then
    sys
  else if address < 0x4020 then
    sys
  else
    sys.write_mapper_byte address value

/-- `src/system.rs`: `System::read_word` — reads the high byte at
`address + 1` (a wrapping `u16` increment), shifts, then adds the low byte
at `address`. -/
def System.read_word (sys : System) (address : Nat) : Option Nat :=
  (sys.read_byte ((address + 1) % 65536)).bind fun hi =>
    (sys.read_byte address).map fun lo => (hi <<< 8) + lo

/-- `src/cpu.rs`: the CPU state.  The `debug_state` / `debug_enabled`
fields only affect trace output and are omitted. -/
structure CPU where
  a : Nat
  x : Nat
  y : Nat
  pc : Nat
  s : Nat
  carry : Bool
  zero : Bool
  interrupt_disable : Bool
  decimal : Bool
  break_flag : Bool
  overflow : Bool
  negative : Bool
  system : System
  clock : Nat

/-- `src/cpu.rs`: addressing mode `immediate` — the byte after the opcode. -/
def CPU.immediate (st : CPU) : Nat := (st.pc + 1) % 65536

/-- `src/cpu.rs`: `general_zero_page` — `(read_byte(pc+1) + to_add) as u16`,
a wrapping `u8` addition. -/
def CPU.general_zero_page (st : CPU) (to_add : Nat) : Option Nat :=
  (st.system.read_byte st.immediate).map fun b => (b + to_add) % 256

/-- `src/cpu.rs`: addressing mode `zero_page`. -/
def CPU.zero_page (st : CPU) : Option Nat := st.general_zero_page 0

/-- `src/cpu.rs`: addressing mode `zero_page_x`. -/
def CPU.zero_page_x (st : CPU) : Option Nat := st.general_zero_page st.x

/-- `src/cpu.rs`: addressing mode `zero_page_y`. -/
def CPU.zero_page_y (st : CPU) : Option Nat := st.general_zero_page st.y

/-- `src/cpu.rs`: addressing mode `indirect_zero_page_x`. -/
def CPU.indirect_zero_page_x (st : CPU) : Option Nat :=
  st.zero_page_x.bind fun a => st.system.read_word a

/-- `src/cpu.rs`: addressing mode `indirect_zero_page_y`; may charge one
extra clock cycle on a page crossing. -/
def CPU.indirect_zero_page_y (st : CPU) (extra_clock_for_page_fault : Bool) :
    Option (Nat × CPU) :=
  st.zero_page.bind fun address =>
  (st.system.read_word address).map fun pre_index =>
    let page1 := pre_index >>> 8
    let indirect_address := (pre_index + st.y) % 65536
    let page2 := indirect_address >>> 8
    let st2 := if extra_clock_for_page_fault && (page1 != page2)
               then { st with clock := st.clock + 1 } else st
    (indirect_address, st2)

/-- `src/cpu.rs`: addressing mode `absolute`. -/
def CPU.absolute (st : CPU) : Option Nat := st.system.read_word st.immediate

/-- `src/cpu.rs`: addressing mode `absolute_x` (wrapping `u16` indexing);
may charge one extra clock cycle on a page crossing. -/
def CPU.absolute_x (st : CPU) (extra_clock_for_page_fault : Bool) :
    Option (Nat × CPU) :=
  st.absolute.map fun address =>
    let page1 := address >>> 8
    let address2 := (address + st.x) % 65536
    let page2 := address2 >>> 8
    let st2 := if extra_clock_for_page_fault && (page1 != page2)
               then { st with clock := st.clock + 1 } else st
    (address2, st2)

/-- `src/cpu.rs`: addressing mode `absolute_y`. -/
def CPU.absolute_y (st : CPU) (extra_clock_for_page_fault : Bool) :
    Option (Nat × CPU) :=
  st.absolute.map fun address =>
    let page1 := address >>> 8
    let address2 := (address + st.y) % 65536
    let page2 := address2 >>> 8
    let st2 := if extra_clock_for_page_fault && (page1 != page2)
               then { st with clock := st.clock + 1 } else st
    (address2, st2)

/-- `src/cpu.rs`: `test_negative` — negative flag from bit 7. -/
def CPU.test_negative (st : CPU) (value : Nat) : CPU :=
  { st with negative := value &&& 0x80 == 0x80 }

/-- `src/cpu.rs`: `test_zero`. -/
def CPU.test_zero (st : CPU) (value : Nat) : CPU :=
  { st with zero := value == 0 }

/-- `src/cpu.rs`: `ora` (no dispatch-table entry routes `0x09` here, but the
handler, as written, accepts it). -/
def CPU.ora (st : CPU) (opcode : Nat) : Option CPU :=
  (match opcode with
   | 0x09 => some (st.immediate, 2, 2, st)
   | 0x05 => st.zero_page.map fun a => (a, 3, 2, st)
   | 0x15 => st.zero_page_x.map fun a => (a, 4, 2, st)
   | 0x01 => st.indirect_zero_page_x.map fun a => (a, 6, 2, st)
   | 0x11 => (st.indirect_zero_page_y true).map fun p => (p.1, 5, 2, p.2)
   | 0x0d => st.absolute.map fun a => (a, 4, 3, st)
   | 0x1d => (st.absolute_x true).map fun p => (p.1, 4, 3, p.2)
   | 0x19 => (st.absolute_y true).map fun p => (p.1, 4, 3, p.2)
   | _ => none : Option (Nat × Nat × Nat × CPU)).bind
  fun (intermediate_address, clock_increment, pc_increment, st) =>
  let st := { st with clock := st.clock + clock_increment,
                      pc := (st.pc + pc_increment) % 65536 }
  (st.system.read_byte intermediate_address).map fun operand =>
    let a := st.a ||| operand
    (({ st with a := a } : CPU).test_negative a).test_zero a

/-- `src/cpu.rs`: `and`. -/
def CPU.and (st : CPU) (opcode : Nat) : Option CPU :=
  (match opcode with
   | 0x29 => some (st.immediate, 2, 2, st)
   | 0x25 => st.zero_page.map fun a => (a, 3, 2, st)
   | 0x35 => st.zero_page_x.map fun a => (a, 4, 2, st)
   | 0x21 => st.indirect_zero_page_x.map fun a => (a, 6, 2, st)
   | 0x31 => (st.indirect_zero_page_y true).map fun p => (p.1, 5, 2, p.2)
   | 0x2d => st.absolute.map fun a => (a, 4, 3, st)
   | 0x3d => (st.absolute_x true).map fun p => (p.1, 4, 3, p.2)
   | 0x39 => (st.absolute_y true).map fun p => (p.1, 4, 3, p.2)
   | _ => none : Option (Nat × Nat × Nat × CPU)).bind
  fun (intermediate_address, clock_increment, pc_increment, st) =>
  let st := { st with clock := st.clock + clock_increment,
                      pc := (st.pc + pc_increment) % 65536 }
  (st.system.read_byte intermediate_address).map fun operand =>
    let a := st.a &&& operand
    (({ st with a := a } : CPU).test_negative a).test_zero a

/-- `src/cpu.rs`: `eor`. -/
def CPU.eor (st : CPU) (opcode : Nat) : Option CPU :=
  (match opcode with
   | 0x49 => some (st.immediate, 2, 2, st)
   | 0x45 => st.zero_page.map fun a => (a, 3, 2, st)
   | 0x55 => st.zero_page_x.map fun a => (a, 4, 2, st)
   | 0x41 => st.indirect_zero_page_x.map fun a => (a, 6, 2, st)
   | 0x51 => (st.indirect_zero_page_y true).map fun p => (p.1, 5, 2, p.2)
   | 0x4d => st.absolute.map fun a => (a, 4, 3, st)
   | 0x5d => (st.absolute_x true).map fun p => (p.1, 4, 3, p.2)
   | 0x59 => (st.absolute_y true).map fun p => (p.1, 4, 3, p.2)
   | _ => none : Option (Nat × Nat × Nat × CPU)).bind
  fun (intermediate_address, clock_increment, pc_increment, st) =>
  let st := { st with clock := st.clock + clock_increment,
                      pc := (st.pc + pc_increment) % 65536 }
  (st.system.read_byte intermediate_address).map fun operand =>
    let a := st.a ^^^ operand
    (({ st with a := a } : CPU).test_negative a).test_zero a

/-- `src/cpu.rs`: `adc`.  The signed 16-bit intermediate is
`a + operand + !carry` (note: the source adds the *negation* of the carry
flag); `as u16` / `as u8` casts become `i16_bits` and `% 256`. -/
def CPU.adc (st : CPU) (opcode : Nat) : Option CPU :=
  (match opcode with
   | 0x69 => some (st.immediate, 2, 2, st)
   | 0x65 => st.zero_page.map fun a => (a, 3, 2, st)
   | 0x75 => st.zero_page_x.map fun a => (a, 4, 2, st)
   | 0x61 => st.indirect_zero_page_x.map fun a => (a, 6, 2, st)
   | 0x71 => (st.indirect_zero_page_y true).map fun p => (p.1, 5, 2, p.2)
   | 0x6d => st.absolute.map fun a => (a, 4, 3, st)
   | 0x7d => (st.absolute_x true).map fun p => (p.1, 4, 3, p.2)
   | 0x79 => (st.absolute_y true).map fun p => (p.1, 4, 3, p.2)
   | _ => none : Option (Nat × Nat × Nat × CPU)).bind
  fun (intermediate_address, clock_increment, pc_increment, st) =>
  let st := { st with clock := st.clock + clock_increment,
                      pc := (st.pc + pc_increment) % 65536 }
  (st.system.read_byte intermediate_address).map fun operand =>
    let intermediate : Int :=
      (st.a : Int) + (operand : Int) + (if !st.carry then 1 else 0)
    let st := { st with
      overflow := !(decide (-128 ≤ intermediate) && decide (intermediate ≤ 127)),
      carry := (i16_bits intermediate) &&& 0xff00 != 0,
      a := (intermediate % 256).toNat }
    (st.test_negative st.a).test_zero st.a

/-- `src/cpu.rs`: `sbc` — `a - operand - !carry` on signed 16-bit values. -/
def CPU.sbc (st : CPU) (opcode : Nat) : Option CPU :=
  (match opcode with
   | 0xe9 => some (st.immediate, 2, 2, st)
   | 0xe5 => st.zero_page.map fun a => (a, 3, 2, st)
   | 0xf5 => st.zero_page_x.map fun a => (a, 4, 2, st)
   | 0xe1 => st.indirect_zero_page_x.map fun a => (a, 6, 2, st)
   | 0xf1 => (st.indirect_zero_page_y true).map fun p => (p.1, 5, 2, p.2)
   | 0xed => st.absolute.map fun a => (a, 4, 3, st)
   | 0xfd => (st.absolute_x true).map fun p => (p.1, 4, 3, p.2)
   | 0xf9 => (st.absolute_y true).map fun p => (p.1, 4, 3, p.2)
   | _ => none : Option (Nat × Nat × Nat × CPU)).bind
  fun (intermediate_address, clock_increment, pc_increment, st) =>
  let st := { st with clock := st.clock + clock_increment,
                      pc := (st.pc + pc_increment) % 65536 }
  (st.system.read_byte intermediate_address).map fun operand =>
    let intermediate : Int :=
      (st.a : Int) - (operand : Int) - (if !st.carry then 1 else 0)
    let st := { st with
      overflow := !(decide (-128 ≤ intermediate) && decide (intermediate ≤ 127)),
      carry := (i16_bits intermediate) &&& 0xff00 != 0,
      a := (intermediate % 256).toNat }
    (st.test_negative st.a).test_zero st.a

/-- `src/cpu.rs`: `cmp` — compares the accumulator. -/
def CPU.cmp (st : CPU) (opcode : Nat) : Option CPU :=
  (match opcode with
   | 0xc9 => some (st.immediate, 2, 2, st)
   | 0xc5 => st.zero_page.map fun a => (a, 3, 2, st)
   | 0xd5 => st.zero_page_x.map fun a => (a, 4, 2, st)
   | 0xc1 => st.indirect_zero_page_x.map fun a => (a, 6, 2, st)
   | 0xd1 => (st.indirect_zero_page_y true).map fun p => (p.1, 5, 2, p.2)
   | 0xcd => st.absolute.map fun a => (a, 4, 3, st)
   | 0xdd => (st.absolute_x true).map fun p => (p.1, 4, 3, p.2)
   | 0xd9 => (st.absolute_y true).map fun p => (p.1, 4, 3, p.2)
   | _ => none : Option (Nat × Nat × Nat × CPU)).bind
  fun (intermediate_address, clock_increment, pc_increment, st) =>
  let st := { st with clock := st.clock + clock_increment,
                      pc := (st.pc + pc_increment) % 65536 }
  (st.system.read_byte intermediate_address).map fun operand =>
    let intermediate : Int := (st.a : Int) - (operand : Int)
    { st with
      negative := (i16_bits intermediate) &&& 0x80 == 0x80,
      zero := intermediate == 0,
      carry := decide (0 ≤ intermediate) }

/-- `src/cpu.rs`: `cpx` — note that the source subtracts the operand from
the *Y* register (`self.y as i16 - ...`), and its match accepts the
`0xc0 / 0xc4 / 0xcc` encodings. -/
def CPU.cpx (st : CPU) (opcode : Nat) : Option CPU :=
  (match opcode with
   | 0xc0 => some (st.immediate, 2, 2, st)
   | 0xc4 => st.zero_page.map fun a => (a, 3, 2, st)
   | 0xcc => st.absolute.map fun a => (a, 4, 3, st)
   | _ => none : Option (Nat × Nat × Nat × CPU)).bind
  fun (intermediate_address, clock_increment, pc_increment, st) =>
  let st := { st with clock := st.clock + clock_increment,
                      pc := (st.pc + pc_increment) % 65536 }
  (st.system.read_byte intermediate_address).map fun operand =>
    let intermediate : Int := (st.y : Int) - (operand : Int)
    { st with
      negative := (i16_bits intermediate) &&& 0x80 == 0x80,
      zero := intermediate == 0,
      carry := decide (0 ≤ intermediate) }

/-- `src/cpu.rs`: `cpy` — note that the source subtracts the operand from
the *X* register, and its match accepts the `0xe0 / 0xe4 / 0xec`
encodings. -/
def CPU.cpy (st : CPU) (opcode : Nat) : Option CPU :=
  (match opcode with
   | 0xe0 => some (st.immediate, 2, 2, st)
   | 0xe4 => st.zero_page.map fun a => (a, 3, 2, st)
   | 0xec => st.absolute.map fun a => (a, 4, 3, st)
   | _ => none : Option (Nat × Nat × Nat × CPU)).bind
  fun (intermediate_address, clock_increment, pc_increment, st) =>
  let st := { st with clock := st.clock + clock_increment,
                      pc := (st.pc + pc_increment) % 65536 }
  (st.system.read_byte intermediate_address).map fun operand =>
    let intermediate : Int := (st.x : Int) - (operand : Int)
    { st with
      negative := (i16_bits intermediate) &&& 0x80 == 0x80,
      zero := intermediate == 0,
      carry := decide (0 ≤ intermediate) }

/-- `src/cpu.rs`: `dec` — wrapping `u8` decrement of a memory operand. -/
def CPU.dec (st : CPU) (opcode : Nat) : Option CPU :=
  (match opcode with
   | 0xc6 => st.zero_page.map fun a => (a, 5, 2, st)
   | 0xd6 => st.zero_page_x.map fun a => (a, 6, 2, st)
   | 0xce => st.absolute.map fun a => (a, 6, 3, st)
   | 0xde => (st.absolute_x false).map fun p => (p.1, 7, 3, p.2)
   | _ => none : Option (Nat × Nat × Nat × CPU)).bind
  fun (intermediate_address, clock_increment, pc_increment, st) =>
  let st := { st with clock := st.clock + clock_increment,
                      pc := (st.pc + pc_increment) % 65536 }
  (st.system.read_byte intermediate_address).map fun b =>
    let intermediate := (b + 255) % 256
    let st := (st.test_negative intermediate).test_zero intermediate
    { st with system := st.system.write_byte intermediate_address intermediate }

/-- `src/cpu.rs`: `dex` — wrapping `u8` decrement of X. -/
def CPU.dex (st : CPU) : CPU :=
  let st := { st with clock := st.clock + 2, pc := (st.pc + 1) % 65536 }
  let st := { st with x := (st.x + 255) % 256 }
  (st.test_negative st.x).test_zero st.x

/-- `src/cpu.rs`: `dey`. -/
def CPU.dey (st : CPU) : CPU :=
  let st := { st with clock := st.clock + 2, pc := (st.pc + 1) % 65536 }
  let st := { st with y := (st.y + 255) % 256 }
  (st.test_negative st.y).test_zero st.y

/-- `src/cpu.rs`: `inc` — wrapping `u8` increment of a memory operand. -/
def CPU.inc (st : CPU) (opcode : Nat) : Option CPU :=
  (match opcode with
   | 0xe6 => st.zero_page.map fun a => (a, 5, 2, st)
   | 0xf6 => st.zero_page_x.map fun a => (a, 6, 2, st)
   | 0xee => st.absolute.map fun a => (a, 6, 3, st)
   | 0xfe => (st.absolute_x false).map fun p => (p.1, 7, 3, p.2)
   | _ => none : Option (Nat × Nat × Nat × CPU)).bind
  fun (intermediate_address, clock_increment, pc_increment, st) =>
  let st := { st with clock := st.clock + clock_increment,
                      pc := (st.pc + pc_increment) % 65536 }
  (st.system.read_byte intermediate_address).map fun b =>
    let intermediate := (b + 1) % 256
    let st := (st.test_negative intermediate).test_zero intermediate
    { st with system := st.system.write_byte intermediate_address intermediate }

/-- `src/cpu.rs`: `inx`. -/
def CPU.inx (st : CPU) : CPU :=
  let st := { st with clock := st.clock + 2, pc := (st.pc + 1) % 65536 }
  let st := { st with x := (st.x + 1) % 256 }
  (st.test_negative st.x).test_zero st.x

/-- `src/cpu.rs`: `iny`. -/
def CPU.iny (st : CPU) : CPU :=
  let st := { st with clock := st.clock + 2, pc := (st.pc + 1) % 65536 }
  let st := { st with y := (st.y + 1) % 256 }
  (st.test_negative st.y).test_zero st.y

/-- `src/cpu.rs`: `asl` — the `0x0a` accumulator form is special-cased;
`u8 <<` discards the shifted-out bits (`% 256`). -/
def CPU.asl (st : CPU) (opcode : Nat) : Option CPU :=
  if opcode = 0x0a then
    let st := { st with carry := st.a &&& 0x80 == 0x80 }
    let st := { st with a := (st.a <<< 1) % 256 }
    let st := (st.test_negative st.a).test_zero st.a
    some { st with clock := st.clock + 2, pc := (st.pc + 1) % 65536 }
  else
  (match opcode with
   | 0x06 => st.zero_page.map fun a => (a, 5, 2, st)
   | 0x16 => st.zero_page_x.map fun a => (a, 6, 2, st)
   | 0x0e => st.absolute.map fun a => (a, 6, 3, st)
   | 0x1e => (st.absolute_x false).map fun p => (p.1, 7, 3, p.2)
   | _ => none : Option (Nat × Nat × Nat × CPU)).bind
  fun (intermediate_address, clock_increment, pc_increment, st) =>
  let st := { st with clock := st.clock + clock_increment,
                      pc := (st.pc + pc_increment) % 65536 }
  (st.system.read_byte intermediate_address).map fun b =>
    let st := { st with carry := b &&& 0x80 == 0x80 }
    let intermediate := (b <<< 1) % 256
    let st := (st.test_negative intermediate).test_zero intermediate
    { st with system := st.system.write_byte intermediate_address intermediate }

/-- `src/cpu.rs`: `rol` — note the source shifts by `1 + carry_value`
(an amount of 1 or 2), not a rotation. -/
def CPU.rol (st : CPU) (opcode : Nat) : Option CPU :=
  let carry_value := if st.carry then 1 else 0
  if opcode = 0x2a then
    let st := { st with carry := st.a &&& 0x80 == 0x80 }
    let st := { st with a := (st.a <<< (1 + carry_value)) % 256 }
    let st := (st.test_negative st.a).test_zero st.a
    some { st with clock := st.clock + 2, pc := (st.pc + 1) % 65536 }
  else
  (match opcode with
   | 0x26 => st.zero_page.map fun a => (a, 5, 2, st)
   | 0x36 => st.zero_page_x.map fun a => (a, 6, 2, st)
   | 0x2e => st.absolute.map fun a => (a, 6, 3, st)
   | 0x3e => (st.absolute_x false).map fun p => (p.1, 7, 3, p.2)
   | _ => none : Option (Nat × Nat × Nat × CPU)).bind
  fun (intermediate_address, clock_increment, pc_increment, st) =>
  let st := { st with clock := st.clock + clock_increment,
                      pc := (st.pc + pc_increment) % 65536 }
  (st.system.read_byte intermediate_address).map fun b =>
    let st := { st with carry := b &&& 0x80 == 0x80 }
    let intermediate := (b <<< (1 + carry_value)) % 256
    let st := (st.test_negative intermediate).test_zero intermediate
    { st with system := st.system.write_byte intermediate_address intermediate }

/-- `src/cpu.rs`: `lsr`. -/
def CPU.lsr (st : CPU) (opcode : Nat) : Option CPU :=
  if opcode = 0x4a then
    let st := { st with carry := st.a &&& 0x01 == 0x01 }
    let st := { st with a := st.a >>> 1 }
    let st := (st.test_negative st.a).test_zero st.a
    some { st with clock := st.clock + 2, pc := (st.pc + 1) % 65536 }
  else
  (match opcode with
   | 0x46 => st.zero_page.map fun a => (a, 5, 2, st)
   | 0x56 => st.zero_page_x.map fun a => (a, 6, 2, st)
   | 0x4e => st.absolute.map fun a => (a, 6, 3, st)
   | 0x5e => (st.absolute_x false).map fun p => (p.1, 7, 3, p.2)
   | _ => none : Option (Nat × Nat × Nat × CPU)).bind
  fun (intermediate_address, clock_increment, pc_increment, st) =>
  let st := { st with clock := st.clock + clock_increment,
                      pc := (st.pc + pc_increment) % 65536 }
  (st.system.read_byte intermediate_address).map fun b =>
    let st := { st with carry := b &&& 0x01 == 0x01 }
    let intermediate := b >>> 1
    let st := (st.test_negative intermediate).test_zero intermediate
    { st with system := st.system.write_byte intermediate_address intermediate }

/-- `src/cpu.rs`: `ror` — `carry_value` is `0x80` when the carry is set, and
the memory form shifts right by `1 + carry_value`; on `u8` the shift amount
is masked modulo 8 (release semantics), so a set carry shifts by
`129 % 8 = 1`. -/
def CPU.ror (st : CPU) (opcode : Nat) : Option CPU :=
  let carry_value := if st.carry then 0x80 else 0
  if opcode = 0x6a then
    let st := { st with carry := st.a &&& 0x01 == 0x01 }
    let st := { st with a := st.a >>> 1 }
    let st := (st.test_negative st.a).test_zero st.a
    some { st with clock := st.clock + 2, pc := (st.pc + 1) % 65536 }
  else
  (match opcode with
   | 0x66 => st.zero_page.map fun a => (a, 5, 2, st)
   | 0x76 => st.zero_page_x.map fun a => (a, 6, 2, st)
   | 0x6e => st.absolute.map fun a => (a, 6, 3, st)
   | 0x7e => (st.absolute_x false).map fun p => (p.1, 7, 3, p.2)
   | _ => none : Option (Nat × Nat × Nat × CPU)).bind
  fun (intermediate_address, clock_increment, pc_increment, st) =>
  let st := { st with clock := st.clock + clock_increment,
                      pc := (st.pc + pc_increment) % 65536 }
  (st.system.read_byte intermediate_address).map fun b =>
    let st := { st with carry := b &&& 0x01 == 0x01 }
    let intermediate := b >>> ((1 + carry_value) % 8)
    let st := (st.test_negative intermediate).test_zero intermediate
    { st with system := st.system.write_byte intermediate_address intermediate }

/-- `src/cpu.rs`: `lda` (cycle/length table copied verbatim, including the
`0xb9` length of 2 and the `0xa1` length of 4). -/
def CPU.lda (st : CPU) (opcode : Nat) : Option CPU :=
  (match opcode with
   | 0xa9 => some (st.immediate, 2, 2, st)
   | 0xa5 => st.zero_page.map fun a => (a, 3, 2, st)
   | 0xb5 => st.zero_page_x.map fun a => (a, 4, 2, st)
   | 0xad => st.absolute.map fun a => (a, 4, 3, st)
   | 0xbd => (st.absolute_x true).map fun p => (p.1, 6, 3, p.2)
   | 0xb9 => (st.absolute_y true).map fun p => (p.1, 4, 2, p.2)
   | 0xa1 => st.indirect_zero_page_x.map fun a => (a, 6, 4, st)
   | 0xb1 => (st.indirect_zero_page_y true).map fun p => (p.1, 6, 2, p.2)
   | _ => none : Option (Nat × Nat × Nat × CPU)).bind
  fun (intermediate_address, clock_increment, pc_increment, st) =>
  let st := { st with clock := st.clock + clock_increment,
                      pc := (st.pc + pc_increment) % 65536 }
  (st.system.read_byte intermediate_address).map fun intermediate =>
    let st := (st.test_negative intermediate).test_zero intermediate
    { st with a := intermediate }

/-- `src/cpu.rs`: `ldx`. -/
def CPU.ldx (st : CPU) (opcode : Nat) : Option CPU :=
  (match opcode with
   | 0xa2 => some (st.immediate, 2, 2, st)
   | 0xa6 => st.zero_page.map fun a => (a, 3, 2, st)
   | 0xb6 => st.zero_page_y.map fun a => (a, 4, 2, st)
   | 0xae => st.absolute.map fun a => (a, 4, 3, st)
   | 0xbe => (st.absolute_y true).map fun p => (p.1, 4, 2, p.2)
   | _ => none : Option (Nat × Nat × Nat × CPU)).bind
  fun (intermediate_address, clock_increment, pc_increment, st) =>
  let st := { st with clock := st.clock + clock_increment,
                      pc := (st.pc + pc_increment) % 65536 }
  (st.system.read_byte intermediate_address).map fun intermediate =>
    let st := (st.test_negative intermediate).test_zero intermediate
    { st with x := intermediate }

/-- `src/cpu.rs`: `ldy` (its match accepts `0x8c`, as in the source). -/
def CPU.ldy (st : CPU) (opcode : Nat) : Option CPU :=
  (match opcode with
   | 0xa0 => some (st.immediate, 2, 2, st)
   | 0xa4 => st.zero_page.map fun a => (a, 3, 2, st)
   | 0xb4 => st.zero_page_x.map fun a => (a, 4, 2, st)
   | 0x8c => st.absolute.map fun a => (a, 4, 3, st)
   | 0xbc => (st.absolute_x true).map fun p => (p.1, 4, 2, p.2)
   | _ => none : Option (Nat × Nat × Nat × CPU)).bind
  fun (intermediate_address, clock_increment, pc_increment, st) =>
  let st := { st with clock := st.clock + clock_increment,
                      pc := (st.pc + pc_increment) % 65536 }
  (st.system.read_byte intermediate_address).map fun intermediate =>
    let st := (st.test_negative intermediate).test_zero intermediate
    { st with y := intermediate }

/-- `src/cpu.rs`: `sta`. -/
def CPU.sta (st : CPU) (opcode : Nat) : Option CPU :=
  (match opcode with
   | 0x85 => st.zero_page.map fun a => (a, 3, 2, st)
   | 0x95 => st.zero_page_x.map fun a => (a, 4, 2, st)
   | 0x8d => st.absolute.map fun a => (a, 4, 3, st)
   | 0x9d => (st.absolute_x false).map fun p => (p.1, 5, 3, p.2)
   | 0x99 => (st.absolute_y false).map fun p => (p.1, 5, 3, p.2)
   | 0x81 => st.indirect_zero_page_x.map fun a => (a, 6, 2, st)
   | 0x91 => (st.indirect_zero_page_y false).map fun p => (p.1, 6, 2, p.2)
   | _ => none : Option (Nat × Nat × Nat × CPU)).bind
  fun (address, clock_increment, pc_increment, st) =>
  let st := { st with clock := st.clock + clock_increment,
                      pc := (st.pc + pc_increment) % 65536 }
  some { st with system := st.system.write_byte address st.a }

/-- `src/cpu.rs`: `stx`. -/
def CPU.stx (st : CPU) (opcode : Nat) : Option CPU :=
  (match opcode with
   | 0x86 => st.zero_page.map fun a => (a, 3, 2, st)
   | 0x96 => st.zero_page_y.map fun a => (a, 4, 2, st)
   | 0x8e => st.absolute.map fun a => (a, 4, 3, st)
   | _ => none : Option (Nat × Nat × Nat × CPU)).bind
  fun (address, clock_increment, pc_increment, st) =>
  let st := { st with clock := st.clock + clock_increment,
                      pc := (st.pc + pc_increment) % 65536 }
  some { st with system := st.system.write_byte address st.x }

/-- `src/cpu.rs`: `sty` (the `0x94` arm uses `zero_page_y`, as in the
source). -/
def CPU.sty (st : CPU) (opcode : Nat) : Option CPU :=
  (match opcode with
   | 0x84 => st.zero_page.map fun a => (a, 3, 2, st)
   | 0x94 => st.zero_page_y.map fun a => (a, 4, 2, st)
   | 0x8c => st.absolute.map fun a => (a, 4, 3, st)
   | _ => none : Option (Nat × Nat × Nat × CPU)).bind
  fun (address, clock_increment, pc_increment, st) =>
  let st := { st with clock := st.clock + clock_increment,
                      pc := (st.pc + pc_increment) % 65536 }
  some { st with system := st.system.write_byte address st.y }

/-- `src/cpu.rs`: `tax`. -/
def CPU.tax (st : CPU) : CPU :=
  let st := { st with clock := st.clock + 2, pc := (st.pc + 1) % 65536 }
  let st := (st.test_negative st.a).test_zero st.a
  { st with x := st.a }

/-- `src/cpu.rs`: `txa`. -/
def CPU.txa (st : CPU) : CPU :=
  let st := { st with clock := st.clock + 2, pc := (st.pc + 1) % 65536 }
  let st := (st.test_negative st.x).test_zero st.x
  { st with a := st.x }

/-- `src/cpu.rs`: `tay`. -/
def CPU.tay (st : CPU) : CPU :=
  let st := { st with clock := st.clock + 2, pc := (st.pc + 1) % 65536 }
  let st := (st.test_negative st.a).test_zero st.a
  { st with y := st.a }

/-- `src/cpu.rs`: `tya`. -/
def CPU.tya (st : CPU) : CPU :=
  let st := { st with clock := st.clock + 2, pc := (st.pc + 1) % 65536 }
  let st := (st.test_negative st.y).test_zero st.y
  { st with a := st.y }

/-- `src/cpu.rs`: `tsx`. -/
def CPU.tsx (st : CPU) : CPU :=
  let st := { st with clock := st.clock + 2, pc := (st.pc + 1) % 65536 }
  let st := (st.test_negative st.s).test_zero st.s
  { st with x := st.s }

/-- `src/cpu.rs`: `txs` (no flag effects). -/
def CPU.txs (st : CPU) : CPU :=
  let st := { st with clock := st.clock + 2, pc := (st.pc + 1) % 65536 }
  { st with s := st.x }

/-- `src/cpu.rs`: `pla` — increments the stack pointer (wrapping), then
reads `0x100 + s`. -/
def CPU.pla (st : CPU) : Option CPU :=
  let st := { st with clock := st.clock + 4, pc := (st.pc + 1) % 65536 }
  let st := { st with s := (st.s + 1) % 256 }
  (st.system.read_byte (0x100 + st.s)).map fun intermediate =>
    let st := (st.test_negative intermediate).test_zero intermediate
    { st with a := intermediate }

/-- `src/cpu.rs`: `pha` — writes `0x100 + s`, then decrements the stack
pointer (wrapping). -/
def CPU.pha (st : CPU) : CPU :=
  let st := { st with clock := st.clock + 3, pc := (st.pc + 1) % 65536 }
  let st := { st with system := st.system.write_byte (0x100 + st.s) st.a }
  { st with s := (st.s + 255) % 256 }

/-- `src/cpu.rs`: `pull_status` — unpacks the flag bits of the byte at
`0x100 + s` after incrementing `s`. -/
def CPU.pull_status (st : CPU) : Option CPU :=
  let st := { st with s := (st.s + 1) % 256 }
  (st.system.read_byte (0x100 + st.s)).map fun intermediate =>
    { st with
      negative := intermediate &&& 0x80 == 0x80,
      overflow := intermediate &&& 0x40 == 0x40,
      decimal := intermediate &&& 0x08 == 0x08,
      interrupt_disable := intermediate &&& 0x04 == 0x04,
      zero := intermediate &&& 0x02 == 0x02,
      carry := intermediate &&& 0x01 == 0x01 }

/-- `src/cpu.rs`: `pull_pc` — increments `s`, reads the 16-bit word at
`0x100 + s` *without using the result*, and increments `s` again.  The
program counter is never assigned. -/
def CPU.pull_pc (st : CPU) : Option CPU :=
  let st := { st with s := (st.s + 1) % 256 }
  (st.system.read_word (0x100 + st.s)).map fun _ =>
    { st with s := (st.s + 1) % 256 }

/-- `src/cpu.rs`: `plp`. -/
def CPU.plp (st : CPU) : Option CPU :=
  let st := { st with clock := st.clock + 4, pc := (st.pc + 1) % 65536 }
  st.pull_status

/-- `src/cpu.rs`: `push_status` — packs the flags into a byte and pushes it.
The source sets `0x02` unconditionally (its comment reads `// always 1`),
and bit 4 is the break flag. -/
def CPU.push_status (st : CPU) : CPU :=
  let intermediate := 0
  let intermediate := if st.negative then intermediate ||| 0x80 else intermediate
  let intermediate := if st.overflow then intermediate ||| 0x40 else intermediate
  let intermediate := intermediate ||| 0x02
  let intermediate := if st.break_flag then intermediate ||| 0x10 else intermediate
  let intermediate := if st.decimal then intermediate ||| 0x08 else intermediate
  let intermediate := if st.interrupt_disable then intermediate ||| 0x04 else intermediate
  let intermediate := if st.zero then intermediate ||| 0x02 else intermediate
  let intermediate := if st.carry then intermediate ||| 0x01 else intermediate
  let st := { st with system := st.system.write_byte (0x100 + st.s) intermediate }
  { st with s := (st.s + 255) % 256 }

/-- `src/cpu.rs`: `push_word` — pushes the high byte, then the low byte,
decrementing `s` (wrapping) after each write. -/
def CPU.push_word (st : CPU) (value : Nat) : CPU :=
  let first_byte := value >>> 8
  let st := { st with system := st.system.write_byte (0x100 + st.s) first_byte }
  let st := { st with s := (st.s + 255) % 256 }
  let second_byte := value &&& 0xff
  let st := { st with system := st.system.write_byte (0x100 + st.s) second_byte }
  { st with s := (st.s + 255) % 256 }

/-- `src/cpu.rs`: `php`. -/
def CPU.php (st : CPU) : CPU :=
  let st := { st with clock := st.clock + 3, pc := (st.pc + 1) % 65536 }
  st.push_status

/-- `src/cpu.rs`: `branch` — signed 8-bit displacement added to the
advanced program counter; 4 cycles on a page change, else 3. -/
def CPU.branch (st : CPU) : Option CPU :=
  let arg_address := st.immediate
  (st.system.read_byte arg_address).map fun b =>
    let address := i8_of_byte b
    let st := { st with pc := (st.pc + 2) % 65536 }
    let prev_page := st.pc >>> 8
    let st := { st with pc := (((st.pc : Int) + address) % 65536).toNat }
    let new_page := st.pc >>> 8
    if prev_page != new_page then { st with clock := st.clock + 4 }
    else { st with clock := st.clock + 3 }

/-- `src/cpu.rs`: `branch_if`. -/
def CPU.branch_if (st : CPU) (condition : Bool) : Option CPU :=
  if condition then st.branch
  else some { st with clock := st.clock + 2, pc := (st.pc + 2) % 65536 }

/-- `src/cpu.rs`: `bpl`. -/
def CPU.bpl (st : CPU) : Option CPU := st.branch_if !st.negative

/-- `src/cpu.rs`: `bmi`. -/
def CPU.bmi (st : CPU) : Option CPU := st.branch_if st.negative

/-- `src/cpu.rs`: `bvc`. -/
def CPU.bvc (st : CPU) : Option CPU := st.branch_if !st.overflow

/-- `src/cpu.rs`: `bvs`. -/
def CPU.bvs (st : CPU) : Option CPU := st.branch_if st.overflow

/-- `src/cpu.rs`: `bcc`. -/
def CPU.bcc (st : CPU) : Option CPU := st.branch_if !st.carry

/-- `src/cpu.rs`: `bcs`. -/
def CPU.bcs (st : CPU) : Option CPU := st.branch_if st.carry

/-- `src/cpu.rs`: `bne`. -/
def CPU.bne (st : CPU) : Option CPU := st.branch_if !st.zero

/-- `src/cpu.rs`: `beq`. -/
def CPU.beq (st : CPU) : Option CPU := st.branch_if st.zero

/-- `src/cpu.rs`: `brk` — pushes the (unadvanced) program counter, loads the
vector at `0xfffe`, sets the break and interrupt-disable flags. -/
def CPU.brk (st : CPU) : Option CPU :=
  let st := { st with clock := st.clock + 7 }
  let st := st.push_word st.pc
  (st.system.read_word 0xfffe).map fun w =>
    { st with pc := w, break_flag := true, interrupt_disable := true }

/-- `src/cpu.rs`: `rti` — pulls status, then `pull_pc`. -/
def CPU.rti (st : CPU) : Option CPU :=
  let st := { st with clock := st.clock + 6 }
  st.pull_status.bind fun st => st.pull_pc

/-- `src/cpu.rs`: `jsr` — pushes `pc + 2`, then jumps to the absolute
operand. -/
def CPU.jsr (st : CPU) : Option CPU :=
  let st := { st with clock := st.clock + 6 }
  let st := st.push_word ((st.pc + 2) % 65536)
  let arg_address := st.immediate
  (st.system.read_word arg_address).map fun w => { st with pc := w }

/-- `src/cpu.rs`: `rts` — charges 6 cycles and calls `pull_pc` (which
discards the pulled word). -/
def CPU.rts (st : CPU) : Option CPU :=
  let st := { st with clock := st.clock + 6 }
  st.pull_pc

/-- `src/cpu.rs`: `jmp` — its match accepts `0x24` (absolute) and `0x2c`
(indirect absolute) only; the program counter is set to the target. -/
def CPU.jmp (st : CPU) (opcode : Nat) : Option CPU :=
  (match opcode with
   | 0x24 => st.absolute.map fun a => (a, 3)
   | 0x2c => st.absolute.bind fun a => (st.system.read_word a).map fun w => (w, 5)
   | _ => none : Option (Nat × Nat)).bind
  fun (address, clock_increment) =>
  let st := { st with clock := st.clock + clock_increment }
  some { st with pc := address }

/-- `src/cpu.rs`: `bit` — its match accepts `0x24` (zero page) and `0x2c`
(absolute) only. -/
def CPU.bit (st : CPU) (opcode : Nat) : Option CPU :=
  (match opcode with
   | 0x24 => st.zero_page.map fun a => (a, 3, 2)
   | 0x2c => st.absolute.map fun a => (a, 4, 3)
   | _ => none : Option (Nat × Nat × Nat)).bind
  fun (address, clock_increment, pc_increment) =>
  let st := { st with clock := st.clock + clock_increment,
                      pc := (st.pc + pc_increment) % 65536 }
  (st.system.read_byte address).map fun value =>
    { st with
      zero := value &&& st.a == 0,
      negative := value &&& 0x80 == 0x80,
      overflow := value &&& 0x40 == 0x40 }

/-- `src/cpu.rs`: `clc`. -/
def CPU.clc (st : CPU) : CPU :=
  let st := { st with clock := st.clock + 2, pc := (st.pc + 1) % 65536 }
  { st with carry := false }

/-- `src/cpu.rs`: `sec`. -/
def CPU.sec (st : CPU) : CPU :=
  let st := { st with clock := st.clock + 2, pc := (st.pc + 1) % 65536 }
  { st with carry := true }

/-- `src/cpu.rs`: `cld`. -/
def CPU.cld (st : CPU) : CPU :=
  let st := { st with clock := st.clock + 2, pc := (st.pc + 1) % 65536 }
  { st with decimal := false }

/-- `src/cpu.rs`: `sed`. -/
def CPU.sed (st : CPU) : CPU :=
  let st := { st with clock := st.clock + 2, pc := (st.pc + 1) % 65536 }
  { st with decimal := true }

/-- `src/cpu.rs`: `cli`. -/
def CPU.cli (st : CPU) : CPU :=
  let st := { st with clock := st.clock + 2, pc := (st.pc + 1) % 65536 }
  { st with interrupt_disable := false }

/-- `src/cpu.rs`: `sei`. -/
def CPU.sei (st : CPU) : CPU :=
  let st := { st with clock := st.clock + 2, pc := (st.pc + 1) % 65536 }
  { st with interrupt_disable := true }

/-- `src/cpu.rs`: `clv`. -/
def CPU.clv (st : CPU) : CPU :=
  let st := { st with clock := st.clock + 2, pc := (st.pc + 1) % 65536 }
  { st with overflow := false }

/-- `src/cpu.rs`: `nop`. -/
def CPU.nop (st : CPU) : CPU :=
  let st := { st with clock := st.clock + 2, pc := (st.pc + 1) % 65536 }
  st

/-- `src/cpu.rs`: `run_opcode` — fetches the byte at the program counter and
dispatches it; the dispatch arms are copied verbatim from the source match
(the default arm is `panic!("Unknown opcode ...")`, i.e. `none`). -/
def CPU.run_opcode (st : CPU) : Option CPU :=
  (st.system.read_byte st.pc).bind fun opcode =>
  match opcode with
  | 0x00 => st.brk
  | 0x01 => st.ora opcode
  | 0x04 => some st.nop
  | 0x05 => st.ora opcode
  | 0x06 => st.asl opcode
  | 0x08 => some st.php
  | 0x0c => some st.nop
  | 0x0d => st.ora opcode
  | 0x0e => st.asl opcode
  | 0x10 => st.bpl
  | 0x11 => st.ora opcode
  | 0x14 => some st.nop
  | 0x15 => st.ora opcode
  | 0x16 => st.asl opcode
  | 0x18 => some st.clc
  | 0x19 => st.ora opcode
  | 0x1a => some st.nop
  | 0x1c => some st.nop
  | 0x1d => st.ora opcode
  | 0x1e => st.asl opcode
  | 0x20 => st.jsr
  | 0x21 => st.and opcode
  | 0x24 => st.bit opcode
  | 0x25 => st.and opcode
  | 0x26 => st.rol opcode
  | 0x28 => st.plp
  | 0x29 => st.and opcode
  | 0x2a => st.rol opcode
  | 0x2c => st.bit opcode
  | 0x2d => st.and opcode
  | 0x2e => st.rol opcode
  | 0x30 => st.bmi
  | 0x31 => st.and opcode
  | 0x34 => some st.nop
  | 0x35 => st.and opcode
  | 0x36 => st.rol opcode
  | 0x38 => some st.sec
  | 0x39 => st.and opcode
  | 0x3a => some st.nop
  | 0x3c => some st.nop
  | 0x3d => st.and opcode
  | 0x3e => st.rol opcode
  | 0x40 => st.rti
  | 0x41 => st.eor opcode
  | 0x44 => some st.nop
  | 0x45 => st.eor opcode
  | 0x46 => st.rol opcode
  | 0x48 => some st.pha
  | 0x49 => st.eor opcode
  | 0x4a => st.rol opcode
  | 0x4c => st.bit opcode
  | 0x4d => st.and opcode
  | 0x4e => st.rol opcode
  | 0x50 => st.bvc
  | 0x51 => st.eor opcode
  | 0x54 => some st.nop
  | 0x55 => st.eor opcode
  | 0x56 => st.lsr opcode
  | 0x58 => some st.cli
  | 0x59 => st.eor opcode
  | 0x5a => some st.nop
  | 0x5c => some st.nop
  | 0x5d => st.eor opcode
  | 0x5e => st.lsr opcode
  | 0x60 => st.rts
  | 0x61 => st.adc opcode
  | 0x64 => some st.nop
  | 0x65 => st.adc opcode
  | 0x66 => st.ror opcode
  | 0x68 => st.pla
  | 0x69 => st.adc opcode
  | 0x6a => st.ror opcode
  | 0x6c => st.jmp opcode
  | 0x6d => st.adc opcode
  | 0x6e => st.ror opcode
  | 0x70 => st.bvs
  | 0x71 => st.adc opcode
  | 0x74 => some st.nop
  | 0x75 => st.adc opcode
  | 0x76 => st.ror opcode
  | 0x78 => some st.sei
  | 0x79 => st.adc opcode
  | 0x7a => some st.nop
  | 0x7c => some st.nop
  | 0x7d => st.adc opcode
  | 0x7e => st.ror opcode
  | 0x80 => some st.nop
  | 0x81 => st.sta opcode
  | 0x82 => some st.nop
  | 0x84 => st.sty opcode
  | 0x85 => st.sta opcode
  | 0x86 => st.stx opcode
  | 0x88 => some st.dey
  | 0x89 => some st.nop
  | 0x8a => some st.txa
  | 0x8c => st.sty opcode
  | 0x8d => st.sta opcode
  | 0x8e => st.stx opcode
  | 0x90 => st.bcc
  | 0x91 => st.sta opcode
  | 0x94 => st.sty opcode
  | 0x95 => st.sta opcode
  | 0x96 => st.stx opcode
  | 0x98 => some st.tya
  | 0x99 => st.sta opcode
  | 0x9a => some st.txs
  | 0x9d => st.sta opcode
  | 0xa0 => st.ldy opcode
  | 0xa1 => st.lda opcode
  | 0xa2 => st.ldx opcode
  | 0xa4 => st.ldy opcode
  | 0xa5 => st.lda opcode
  | 0xa6 => st.ldx opcode
  | 0xa8 => some st.tay
  | 0xa9 => st.lda opcode
  | 0xaa => some st.tax
  | 0xac => st.ldy opcode
  | 0xad => st.lda opcode
  | 0xae => st.ldx opcode
  | 0xb0 => st.bcs
  | 0xb1 => st.lda opcode
  | 0xb4 => st.ldy opcode
  | 0xb5 => st.lda opcode
  | 0xb6 => st.ldx opcode
  | 0xb8 => some st.clv
  | 0xb9 => st.lda opcode
  | 0xba => some st.tsx
  | 0xbc => st.ldy opcode
  | 0xbd => st.lda opcode
  | 0xbe => st.ldx opcode
  | 0xc0 => st.cpy opcode
  | 0xc1 => st.cmp opcode
  | 0xc2 => some st.nop
  | 0xc4 => st.cpy opcode
  | 0xc5 => st.cmp opcode
  | 0xc6 => st.dec opcode
  | 0xc8 => some st.iny
  | 0xc9 => st.cmp opcode
  | 0xca => some st.dex
  | 0xcc => st.cpy opcode
  | 0xcd => st.cmp opcode
  | 0xce => st.dec opcode
  | 0xd0 => st.bne
  | 0xd1 => st.cmp opcode
  | 0xd4 => some st.nop
  | 0xd5 => st.cmp opcode
  | 0xd6 => st.dec opcode
  | 0xd8 => some st.cld
  | 0xd9 => st.cmp opcode
  | 0xda => some st.nop
  | 0xdc => some st.nop
  | 0xdd => st.cmp opcode
  | 0xde => st.dec opcode
  | 0xe0 => st.cpx opcode
  | 0xe1 => st.sbc opcode
  | 0xe2 => some st.nop
  | 0xe4 => st.cpx opcode
  | 0xe5 => st.sbc opcode
  | 0xe6 => st.inc opcode
  | 0xe8 => some st.inx
  | 0xe9 => st.sbc opcode
  | 0xea => some st.nop
  | 0xec => st.cpx opcode
  | 0xed => st.sbc opcode
  | 0xee => st.inc opcode
  | 0xf0 => st.beq
  | 0xf1 => st.sbc opcode
  | 0xf4 => some st.nop
  | 0xf5 => st.sbc opcode
  | 0xf6 => st.inc opcode
  | 0xf8 => some st.sed
  | 0xf9 => st.sbc opcode
  | 0xfa => some st.nop
  | 0xfc => some st.nop
  | 0xfd => st.sbc opcode
  | 0xfe => st.inc opcode
  | _ => none

/-- `src/cpu.rs`: `CPU::new` — the power-up state: stack pointer `0xfd`,
interrupt-disable set, program counter loaded from the reset vector at
`0xfffc` (given here the already-constructed bus; the file-loading prelude
is I/O). -/
def CPU.new (system : System) : Option CPU :=
  (system.read_word 0xfffc).map fun reset_vector =>
    { a := 0, x := 0, y := 0, s := 0xfd, pc := reset_vector,
      carry := false, zero := false, interrupt_disable := true,
      decimal := false, break_flag := false, overflow := false,
      negative := false, system := system, clock := 0 }

/-- Test fixture: a CPU in the power-up register/flag state with a given bus
and program counter. -/
def test_cpu (system : System) (pc0 : Nat) : CPU :=
  { a := 0, x := 0, y := 0, s := 0xfd, pc := pc0,
    carry := false, zero := false, interrupt_disable := true,
    decimal := false, break_flag := false, overflow := false,
    negative := false, system := system, clock := 0 }

/-- Test fixture: an NROM cartridge with one 16 KiB program page and one
8 KiB graphics page. -/
def cart1 : Cart :=
  { prg_rom := 1, chr_rom := 1,
    mirroring := Mirroring.HorizontalOrMapperControlled,
    battery_present := false, trainer_present := false,
    hard_wired_four_screen_mode := false, mapper := 0,
    prg_rom_pages := [List.replicate 16384 0xab],
    chr_rom_pages := [List.replicate 8192 0xcd] }

/-- Test fixture: a bus with the given scratch RAM contents and `cart1`. -/
def test_sys (ram : Nat → Nat) : System :=
  { scratch_ram := ram, ppu := PPU.new, apu := {}, cart := cart1 }

/-- Test fixture: a bus whose RAM is all zero. -/
def sys_zero : System := test_sys fun _ => 0

/-- Test fixture (claim C1): an `RTS` (`0x60`) at `0x0300` with the return
address `0x1234` on the stack (`0x01fe` holds `0x34`, `0x01ff` holds
`0x12`, stack pointer `0xfd`). -/
def cpuC1 : CPU :=
  test_cpu
    (test_sys fun i =>
      if i = 0x300 then 0x60
      else if i = 0x1fe then 0x34
      else if i = 0x1ff then 0x12
      else 0)
    0x300

/-- Test fixture (claim C2): `ADC #$01` (`0x69 0x01`) at `0x0300` with
accumulator `0x7f` and the carry flag set. -/
def cpuC2 : CPU :=
  { test_cpu
      (test_sys fun i =>
        if i = 0x300 then 0x69 else if i = 0x301 then 0x01 else 0)
      0x300 with
    a := 0x7f, carry := true }

/-- Test fixture (claim C3): `CPX #$01` (`0xe0 0x01`) at `0x0300` with
`X = 1` and `Y = 0`. -/
def cpuC3 : CPU :=
  { test_cpu
      (test_sys fun i =>
        if i = 0x300 then 0xe0 else if i = 0x301 then 0x01 else 0)
      0x300 with
    x := 1, y := 0 }

/-- Test fixture (claim C4): `PHP` (`0x08`) at `0x0300` with every status
flag clear and stack pointer `0xfd`. -/
def cpuC4 : CPU :=
  { test_cpu (test_sys fun i => if i = 0x300 then 0x08 else 0) 0x300 with
    interrupt_disable := false }

/-- Test fixture (claim C10): `JMP absolute` (`0x4c`) at `0x0300`. -/
def cpuC10 : CPU :=
  test_cpu (test_sys fun i => if i = 0x300 then 0x4c else 0) 0x300

/-- Test fixture (claim C7): a four-byte buffer without the ROM magic. -/
def badC7 : List Nat := [0, 0, 0, 0]

/-- Test fixture (claim C7): a well-formed ROM image declaring one program
page and one graphics page. -/
def romC7 : List Nat :=
  [0x4e, 0x45, 0x53, 0x1a, 1, 1, 0, 0] ++ List.replicate 8 0 ++
    List.replicate 16384 0xab ++ List.replicate 8192 0xcd

/-- Test fixture (claim C9): a valid-magic 8-byte buffer declaring zero
program and zero graphics pages. -/
def bufC9 : List Nat := [0x4e, 0x45, 0x53, 0x1a, 0, 0, 0, 0]

/-- Test fixture (claim C8): RAM holding `0x34` at `0x7ff` and `0x12` at
cell 0 (which also backs the mirrored address `0x800`). -/
def sysC8 : System :=
  test_sys fun i => if i = 0x7ff then 0x34 else if i = 0 then 0x12 else 0

/-- The low-11-bit mask used by the bus RAM mirroring, as a remainder. -/
theorem and_0x7ff_eq_mod (x : Nat) : x &&& 0x7ff = x % 2048 := by
  have h := Nat.and_pow_two_sub_one_eq_mod x 11
  norm_num at h
  exact h

/-- C1: the spec says RTS pulls the program counter.  In the code,
`pull_pc` reads the 16-bit word from the stack but discards it: running
opcode `0x60` on `cpuC1`, whose stack holds the return address `0x1234`,
leaves the program counter at `0x0300` (the address of the RTS itself)
instead of setting it to `0x1234`; only the stack pointer (to `0xff`) and
the clock move. -/
theorem c1_rts_never_assigns_pc :
    cpuC1.system.read_word 0x1fe = some 0x1234 ∧
    (CPU.run_opcode cpuC1).map CPU.pc = some 0x300 ∧
    (CPU.run_opcode cpuC1).map CPU.pc ≠ some 0x1234 ∧
    (CPU.run_opcode cpuC1).map CPU.s = some 0xff ∧
    (CPU.run_opcode cpuC1).map CPU.clock = some 6 :=
  ⟨by decide, by decide, by decide, by decide, by decide⟩

/-- C2: the spec says ADC computes `A + operand + carry-in` and that
`A = 0x7f`, carry-in 1, operand `0x01` yields accumulator `0x81`.  The code
adds the *negation* of the carry flag (`!self.carry as i16`), so running
`ADC #$01` on `cpuC2` (accumulator `0x7f`, carry set) yields accumulator
`0x80`, not `0x81` (negative and overflow set, carry and zero clear). -/
theorem c2_adc_adds_negated_carry :
    (CPU.run_opcode cpuC2).map
        (fun st => (st.a, st.negative, st.overflow, st.carry, st.zero)) =
      some (0x80, true, true, false, false) ∧
    (CPU.run_opcode cpuC2).map CPU.a ≠ some 0x81 :=
  ⟨by decide, by decide⟩

/-- C3: the spec says CPX compares the X register and CPY the Y register.
In the code the handlers are swapped (`cpx` subtracts the operand from Y,
`cpy` from X) and, worse, the dispatch table feeds each handler the other
family's encodings, so every CPX/CPY opcode reaches the unknown-opcode
panic: running `CPX #$01` (`0xe0`) on `cpuC3` panics, and the `cpx` handler
itself, invoked with the encoding its match accepts (`0xc0`), compares
`Y = 0` instead of `X = 1` against the operand 1, producing
`zero = false, carry = false` where an X compare would produce
`zero = true, carry = true`. -/
theorem c3_compare_handlers_swapped_and_unreachable :
    CPU.run_opcode cpuC3 = none ∧
    (CPU.cpx cpuC3 0xc0).map (fun st => (st.zero, st.carry)) =
      some (false, false) :=
  ⟨rfl, by decide⟩

/-- C4: the spec says the status byte pushed by PHP has bit 5 always set.
The code ORs in `0x02` (bit 1) where its comment says `// always 1`, so on
`cpuC4` (every flag clear, stack pointer `0xfd`) PHP stores the byte `0x02`
at `0x01fd` — bit 5 is clear, and bit 1 is set even though the zero flag is
clear — and then decrements the stack pointer to `0xfc`. -/
theorem c4_php_pushes_bit1_not_bit5 :
    ((CPU.run_opcode cpuC4).bind fun st => st.system.read_byte 0x1fd) =
      some 0x02 ∧
    (((CPU.run_opcode cpuC4).bind fun st => st.system.read_byte 0x1fd).map
        fun b => (b &&& 0x20, b &&& 0x02)) = some (0, 0x02) ∧
    (CPU.run_opcode cpuC4).map CPU.s = some 0xfc :=
  ⟨by decide, by decide, by decide⟩

/-- C5 (counterexample): the claim says a bus read in the unimplemented
mapper region `0x4020..0x7fff` returns 0.  Reading `0x4020` on a concrete
bus panics (`none`), and in particular does not return `some 0`. -/
theorem c5_counterexample :
    System.read_byte sys_zero 0x4020 = none ∧
    System.read_byte sys_zero 0x4020 ≠ some 0 :=
  ⟨by decide, by decide⟩

/-- C5 (amended): for every address in `0x4020..0x7fff`, `write_byte` leaves
the bus state unchanged, but `read_byte` hits the fatal
`panic!("Cannot read byte ... from mapper")` branch (`none`) rather than
returning 0. -/
theorem c5_mapper_gap_write_ignored_read_panics
    (sys : System) (address v : Nat)
    (h1 : 0x4020 ≤ address) (h2 : address ≤ 0x7fff) :
    sys.read_byte address = none ∧ sys.write_byte address v = sys := by
  constructor
  · unfold System.read_byte System.read_mapper_byte
    rw [if_neg (by omega), if_neg (by omega), if_neg (by omega),
      if_neg (by omega), if_neg (by omega)]
  · unfold System.write_byte System.write_mapper_byte
    rw [if_neg (by omega), if_neg (by omega), if_neg (by omega)]

/-- C5 (witness): the amended statement at `address = 0x4020`, `v = 0`. -/
theorem c5_witness :
    System.read_byte sys_zero 0x4020 = none ∧
    System.write_byte sys_zero 0x4020 0 = sys_zero :=
  c5_mapper_gap_write_ignored_read_panics sys_zero 0x4020 0 (by decide) (by decide)

/-- C6: for every RAM address `a ≤ 0x7ff` and byte `v`, writing `v` through
any of the four aliases `a`, `a + 0x800`, `a + 0x1000`, `a + 0x1800` and
reading back through any of the four returns `v`: the four addresses hit
the same storage cell (with `d1 = d2 = 0` this is the plain write/read
round trip). -/
theorem c6_ram_mirroring_aliases
    (sys : System) (a v d1 d2 : Nat) (ha : a ≤ 0x7ff)
    (hd1 : d1 = 0 ∨ d1 = 0x800 ∨ d1 = 0x1000 ∨ d1 = 0x1800)
    (hd2 : d2 = 0 ∨ d2 = 0x800 ∨ d2 = 0x1000 ∨ d2 = 0x1800) :
    (sys.write_byte (a + d1) v).read_byte (a + d2) = some v := by
  have hm1 : (a + d1) % 2048 = a := by rcases hd1 with rfl | rfl | rfl | rfl <;> omega
  have hm2 : (a + d2) % 2048 = a := by rcases hd2 with rfl | rfl | rfl | rfl <;> omega
  have hl1 : a + d1 < 0x2000 := by rcases hd1 with rfl | rfl | rfl | rfl <;> omega
  have hl2 : a + d2 < 0x2000 := by rcases hd2 with rfl | rfl | rfl | rfl <;> omega
  unfold System.write_byte
  rw [if_pos hl1]
  unfold System.read_byte
  rw [if_pos hl2]
  rw [and_0x7ff_eq_mod, and_0x7ff_eq_mod, hm1, hm2]
  simp

/-- C6 (witness): writing 7 through the alias `5 + 0x800` and reading
through the alias `5 + 0x1800` returns 7. -/
theorem c6_witness :
    (sys_zero.write_byte (5 + 0x800) 7).read_byte (5 + 0x1800) = some 7 :=
  c6_ram_mirroring_aliases sys_zero 5 7 0x800 0x1800 (by decide)
    (Or.inr (Or.inl rfl)) (Or.inr (Or.inr (Or.inr rfl)))

/-- C8: for every 16-bit address (the high byte coming from the wrapping
successor `(address + 1) % 65536`, so `0xffff` wraps to `0x0000`),
`read_word` returns the low byte at `address` combined little-endian with
the byte at the successor shifted left 8 bits, whenever the two byte reads
succeed. -/
theorem c8_read_word_little_endian
    (sys : System) (address lo hi : Nat) (_ha : address < 0x10000)
    (hlo : sys.read_byte address = some lo)
    (hhi : sys.read_byte ((address + 1) % 65536) = some hi)
    (hbyte : lo < 256) :
    sys.read_word address = some (lo ||| (hi <<< 8)) := by
  unfold System.read_word
  rw [hhi, Option.some_bind, hlo]
  have hlo2 : lo < 2 ^ 8 := by simpa using hbyte
  have key : (hi <<< 8) + lo = lo ||| (hi <<< 8) := by
    rw [Nat.shiftLeft_eq]
    calc hi * 2 ^ 8 + lo = 2 ^ 8 * hi + lo := by ring
      _ = 2 ^ 8 * hi ||| lo := Nat.mul_add_lt_is_or hlo2 hi
      _ = lo ||| 2 ^ 8 * hi := Nat.lor_comm _ _
      _ = lo ||| hi * 2 ^ 8 := by rw [Nat.mul_comm]
  simp [key]

/-- C8 (witness): on a concrete bus, at `address = 0x7ff`: the low byte is
`0x34`, the high byte comes from `(0x7ff + 1) % 65536 = 0x800`, a mirror of
RAM cell 0 holding `0x12`. -/
theorem c8_witness :
    sysC8.read_word 0x7ff = some (0x34 ||| (0x12 <<< 8)) :=
  c8_read_word_little_endian sysC8 0x7ff 0x34 0x12 (by decide) rfl rfl
    (by decide)

/-- C10: any CPU state whose fetched opcode byte is `0x4c` (the documented
JMP-absolute encoding) hits the fatal unknown-opcode panic: the dispatch
table routes `0x4c` to the `bit` handler, whose match has no arm for
`0x4c`, so `run_opcode` panics (`none`) instead of jumping. -/
theorem c10_jmp_absolute_hits_unknown_opcode_panic
    (st : CPU) (h : st.system.read_byte st.pc = some 0x4c) :
    st.run_opcode = none ∧ st.bit 0x4c = none := by
  constructor
  · unfold CPU.run_opcode
    rw [h]
    rfl
  · rfl

/-- C10 (witness): a concrete CPU fetching `0x4c` panics. -/
theorem c10_witness :
    CPU.run_opcode cpuC10 = none ∧ CPU.bit cpuC10 0x4c = none :=
  c10_jmp_absolute_hits_unknown_opcode_panic cpuC10 (by decide)

/-- Indexing into a dropped list. -/
theorem getElem?_drop_nat {α : Type} (l : List α) (i j : Nat) :
    (l.drop i)[j]? = l[i + j]? := by
  induction i generalizing l with
  | zero => simp
  | succ i ih =>
    cases l with
    | nil => simp
    | cons a as =>
      rw [List.drop_succ_cons, ih, Nat.succ_add, List.getElem?_cons_succ]

/-- A page slice succeeds exactly on the bytes
`contents[start], ..., contents[start + size - 1]` when they exist. -/
theorem slice_page_eq (l : List Nat) (start size : Nat)
    (h : start + size ≤ l.length) :
    slice_page l start size = some ((l.drop start).take size) := by
  induction size with
  | zero => rfl
  | succ n ih =>
    rw [slice_page, ih (by omega), Option.some_bind,
      List.getElem?_eq_getElem (by omega : start + n < l.length)]
    rw [List.take_succ, getElem?_drop_nat,
      List.getElem?_eq_getElem (by omega : start + n < l.length)]
    rfl

/-- A nonempty page slice whose last byte is out of bounds panics. -/
theorem slice_page_none (l : List Nat) (start n : Nat)
    (h : l.length < start + n + 1) :
    slice_page l start (n + 1) = none := by
  rw [slice_page, List.getElem?_eq_none (by omega : l.length ≤ start + n)]
  cases slice_page l start n <;> rfl

/-- Collecting `count` pages of `size` bytes succeeds when the last byte of
the last page is in bounds, and produces the successive slices. -/
theorem collect_pages_eq (l : List Nat) (start size count : Nat)
    (h : start + count * size ≤ l.length) :
    collect_pages l start size count =
      some ((List.range count).map fun p => (l.drop (start + p * size)).take size) := by
  induction count with
  | zero => rfl
  | succ c ih =>
    have hstep : (c + 1) * size = c * size + size := Nat.succ_mul c size
    rw [collect_pages, ih (by omega), Option.some_bind,
      slice_page_eq l (start + c * size) size (by omega)]
    simp [List.range_succ]

/-- Collecting at least one page of positive size panics when the buffer is
shorter than the last page requires. -/
theorem collect_pages_none (l : List Nat) (start size count : Nat)
    (hsize : 0 < size) (hcount : 0 < count)
    (h : l.length < start + count * size) :
    collect_pages l start size count = none := by
  obtain ⟨c, rfl⟩ : ∃ c, count = c + 1 := ⟨count - 1, by omega⟩
  obtain ⟨s, rfl⟩ : ∃ s, size = s + 1 := ⟨size - 1, by omega⟩
  have hlast : slice_page l (start + c * (s + 1)) (s + 1) = none := by
    apply slice_page_none
    have hstep : (c + 1) * (s + 1) = c * (s + 1) + (s + 1) := Nat.succ_mul c (s + 1)
    omega
  rw [collect_pages, hlast]
  cases collect_pages l start (s + 1) c <;> rfl

/-- A buffer whose first four bytes are the ROM magic passes both magic
checks of `load_to_cart` and is at least four bytes long. -/
theorem take_four_magic {l : List Nat}
    (h : l.take 4 = [0x4e, 0x45, 0x53, 0x1a]) :
    l.take 3 = [0x4e, 0x45, 0x53] ∧ l[3]? = some 0x1a ∧ 4 ≤ l.length := by
  have hlen : 4 ≤ l.length := by
    have hl := congrArg List.length h
    rw [List.length_take] at hl
    simp at hl
    omega
  refine ⟨?_, ?_, hlen⟩
  · have h3 := List.take_take 3 4 l
    norm_num at h3
    rw [← h3, h]
    rfl
  · rw [← List.getElem?_take_of_lt (show (3:Nat) < 4 by omega), h]
    rfl

/-- After a valid 16-byte header, `load_to_cart` reduces to the two
page-collection loops followed by `Ok`, for some cart constructor `k` that
stores the collected page lists. -/
theorem load_to_cart_decomposed (contents : List Nat) (prg chr : Nat)
    (hmagic : contents.take 4 = [0x4e, 0x45, 0x53, 0x1a])
    (h4 : contents[4]? = some prg) (h5 : contents[5]? = some chr)
    (hlen : 8 ≤ contents.length) :
    ∃ k : List (List Nat) → List (List Nat) → Cart,
      (∀ pp cp, (k pp cp).prg_rom_pages = pp ∧ (k pp cp).chr_rom_pages = cp) ∧
      load_to_cart contents =
        (collect_pages contents 16 16384 prg).bind fun pp =>
        (collect_pages contents (16 + 16384 * prg) 8192 chr).bind fun cp =>
        some (Except.ok (k pp cp)) := by
  obtain ⟨h3, hb3, hlen4⟩ := take_four_magic hmagic
  obtain ⟨b6, h6⟩ : ∃ b, contents[6]? = some b := by
    rw [List.getElem?_eq_getElem (by omega : 6 < contents.length)]
    exact ⟨_, rfl⟩
  obtain ⟨b7, h7⟩ : ∃ b, contents[7]? = some b := by
    rw [List.getElem?_eq_getElem (by omega : 7 < contents.length)]
    exact ⟨_, rfl⟩
  refine ⟨fun pp cp =>
    { prg_rom := prg, chr_rom := chr,
      mirroring := match b6 &&& 0x1 with
        | 0 => Mirroring.HorizontalOrMapperControlled
        | 1 => Mirroring.Vertical
        | _ => Mirroring.HorizontalOrMapperControlled,
      battery_present := b6 &&& 0x2 == 0x2,
      trainer_present := b6 &&& 0x3 == 0x3,
      hard_wired_four_screen_mode := b6 &&& 0x4 == 0x4,
      mapper := (b6 >>> 4) + (b7 &&& 0xf0),
      prg_rom_pages := pp, chr_rom_pages := cp },
    fun pp cp => ⟨rfl, rfl⟩, ?_⟩
  unfold load_to_cart
  rw [if_neg (by omega : ¬ contents.length < 3), if_neg (not_ne_iff.mpr h3)]
  simp only [hb3, h4, h5, h6, h7, Option.some_bind]
  rw [if_neg (by simp : ¬ ((0x1a : Nat) ≠ 0x1a))]

/-- C7: a buffer whose first four bytes are not the magic `N`,`E`,`S`,`0x1a`
fails with `FileNotARom`; a well-formed buffer declaring one program page
and one graphics page yields exactly one 16384-byte program page (bytes
16..16399) and one 8192-byte graphics page (bytes 16400..24591). -/
theorem c7_magic_check_and_page_slicing (bad good : List Nat)
    (hbadlen : 4 ≤ bad.length)
    (hbad : bad.take 4 ≠ [0x4e, 0x45, 0x53, 0x1a])
    (hheader : good.take 6 = [0x4e, 0x45, 0x53, 0x1a, 1, 1])
    (hlen : 24592 ≤ good.length) :
    load_to_cart bad = some (Except.error CartLoadError.FileNotARom) ∧
    ∃ c, load_to_cart good = some (Except.ok c) ∧
      c.prg_rom_pages = [(good.drop 16).take 16384] ∧
      c.chr_rom_pages = [(good.drop 16400).take 8192] ∧
      c.prg_rom_pages.map List.length = [16384] ∧
      c.chr_rom_pages.map List.length = [8192] := by
  constructor
  · by_cases h3 : bad.take 3 = [0x4e, 0x45, 0x53]
    · obtain ⟨b3, hb3⟩ : ∃ b, bad[3]? = some b := by
        rw [List.getElem?_eq_getElem (by omega : 3 < bad.length)]
        exact ⟨_, rfl⟩
      have hb3ne : b3 ≠ 0x1a := by
        intro he
        apply hbad
        have ht4 : bad.take 4 = bad.take 3 ++ bad[3]?.toList := List.take_succ
        rw [ht4, h3, hb3, he]
        rfl
      unfold load_to_cart
      rw [if_neg (by omega : ¬ bad.length < 3), if_neg (not_ne_iff.mpr h3)]
      simp only [hb3, Option.some_bind]
      rw [if_pos hb3ne]
    · unfold load_to_cart
      rw [if_neg (by omega : ¬ bad.length < 3), if_pos h3]
  · have hmagic : good.take 4 = [0x4e, 0x45, 0x53, 0x1a] := by
      have ht := List.take_take 4 6 good
      norm_num at ht
      rw [← ht, hheader]
      rfl
    have h4 : good[4]? = some 1 := by
      rw [← List.getElem?_take_of_lt (show (4:Nat) < 6 by omega), hheader]
      rfl
    have h5 : good[5]? = some 1 := by
      rw [← List.getElem?_take_of_lt (show (5:Nat) < 6 by omega), hheader]
      rfl
    obtain ⟨k, hk, heq⟩ :=
      load_to_cart_decomposed good 1 1 hmagic h4 h5 (by omega)
    rw [heq,
      collect_pages_eq good 16 16384 1 (by omega), Option.some_bind,
      collect_pages_eq good (16 + 16384 * 1) 8192 1 (by omega),
      Option.some_bind]
    obtain ⟨hpp, hcp⟩ := hk
      ((List.range 1).map fun p => (good.drop (16 + p * 16384)).take 16384)
      ((List.range 1).map fun p => (good.drop (16 + 16384 * 1 + p * 8192)).take 8192)
    have hrange1 : ∀ f : Nat → List Nat, (List.range 1).map f = [f 0] := fun f => rfl
    refine ⟨_, rfl, ?_, ?_, ?_, ?_⟩
    · rw [hpp, hrange1]
    · rw [hcp, hrange1]
    · rw [hpp, hrange1]
      simp [List.length_take, List.length_drop]
      omega
    · rw [hcp, hrange1]
      simp [List.length_take, List.length_drop]
      omega


/-- C7 (witness): the concrete buffers — `badC7` (no magic) is rejected;
`romC7` (header `N`,`E`,`S`,`0x1a`, one program page, one graphics page,
24592 bytes) loads with the two expected page slices. -/
theorem c7_witness :
    load_to_cart badC7 = some (Except.error CartLoadError.FileNotARom) ∧
    ∃ c, load_to_cart romC7 = some (Except.ok c) ∧
      c.prg_rom_pages = [(romC7.drop 16).take 16384] ∧
      c.chr_rom_pages = [(romC7.drop 16400).take 8192] ∧
      c.prg_rom_pages.map List.length = [16384] ∧
      c.chr_rom_pages.map List.length = [8192] :=
  c7_magic_check_and_page_slicing badC7 romC7 (by decide) (by decide) rfl
    (by simp only [romC7, List.length_append, List.length_replicate,
          List.length_cons, List.length_nil]
        norm_num)

/-- C9 (amended): with a valid magic header of at least 8 bytes,
`load_to_cart` returns `Ok` exactly when both page counts are zero or the
buffer holds at least `16 + 16384 * prg + 8192 * chr` bytes; on any other
buffer it panics (`none`) — it never returns a typed error once the magic
check has passed. -/
theorem c9_loader_bounds (contents : List Nat) (prg chr : Nat)
    (hmagic : contents.take 4 = [0x4e, 0x45, 0x53, 0x1a])
    (h4 : contents[4]? = some prg) (h5 : contents[5]? = some chr)
    (hlen : 8 ≤ contents.length) :
    ((∃ c, load_to_cart contents = some (Except.ok c)) ↔
      ((prg = 0 ∧ chr = 0) ∨ 16 + 16384 * prg + 8192 * chr ≤ contents.length)) ∧
    (load_to_cart contents = none ↔
      ¬((prg = 0 ∧ chr = 0) ∨ 16 + 16384 * prg + 8192 * chr ≤ contents.length)) := by
  obtain ⟨k, hk, heq⟩ := load_to_cart_decomposed contents prg chr hmagic h4 h5 hlen
  have hsome : ((prg = 0 ∧ chr = 0) ∨ 16 + 16384 * prg + 8192 * chr ≤ contents.length) →
      ∃ c, load_to_cart contents = some (Except.ok c) := by
    intro hc
    rw [heq]
    rcases hc with ⟨hp, hq⟩ | hle
    · subst hp
      subst hq
      exact ⟨_, rfl⟩
    · rw [collect_pages_eq contents 16 16384 prg (by omega), Option.some_bind,
        collect_pages_eq contents (16 + 16384 * prg) 8192 chr (by omega),
        Option.some_bind]
      exact ⟨_, rfl⟩
  have hnone : ¬((prg = 0 ∧ chr = 0) ∨ 16 + 16384 * prg + 8192 * chr ≤ contents.length) →
      load_to_cart contents = none := by
    intro hc
    rw [not_or] at hc
    obtain ⟨hnot00, hnotle⟩ := hc
    rw [heq]
    rcases Nat.eq_zero_or_pos prg with hp0 | hppos
    · subst hp0
      have hchr : 0 < chr := by
        rcases Nat.eq_zero_or_pos chr with hc0 | hcpos
        · exact absurd ⟨rfl, hc0⟩ hnot00
        · exact hcpos
      rw [show collect_pages contents 16 16384 0 = some [] from rfl,
        Option.some_bind,
        collect_pages_none contents (16 + 16384 * 0) 8192 chr (by omega) hchr
          (by omega)]
      rfl
    · by_cases hp : 16 + 16384 * prg ≤ contents.length
      · have hchr : 0 < chr := by omega
        rw [collect_pages_eq contents 16 16384 prg (by omega), Option.some_bind,
          collect_pages_none contents (16 + 16384 * prg) 8192 chr (by omega) hchr
            (by omega)]
        rfl
      · rw [collect_pages_none contents 16 16384 prg (by omega) hppos (by omega)]
        rfl
  refine ⟨⟨?_, hsome⟩, ⟨?_, hnone⟩⟩
  · rintro ⟨c, hcx⟩
    by_contra hR
    rw [hnone hR] at hcx
    exact Option.noConfusion hcx
  · intro hn
    intro hR
    obtain ⟨c, hcx⟩ := hsome hR
    rw [hn] at hcx
    exact Option.noConfusion hcx

/-- C9 (counterexample): the claim says `load_to_cart` returns `Ok` only
when the buffer holds at least `16 + 16384 * prg + 8192 * chr` bytes, and
that any shorter buffer panics.  The 8-byte buffer `bufC9` (valid magic,
zero page counts) is shorter than that bound (16 bytes) yet loads
successfully, with no panic. -/
theorem c9_counterexample :
    (∃ c, load_to_cart bufC9 = some (Except.ok c)) ∧
    bufC9[4]? = some 0 ∧ bufC9[5]? = some 0 ∧
    bufC9.length < 16 + 16384 * 0 + 8192 * 0 ∧
    (load_to_cart bufC9).isSome = true :=
  ⟨⟨_, rfl⟩, by decide, by decide, by decide, rfl⟩

/-- C9 (witness): the amended bound at the concrete buffer `bufC9`. -/
theorem c9_witness :
    ((∃ c, load_to_cart bufC9 = some (Except.ok c)) ↔
      ((0 = 0 ∧ 0 = 0) ∨ 16 + 16384 * 0 + 8192 * 0 ≤ bufC9.length)) ∧
    (load_to_cart bufC9 = none ↔
      ¬((0 = 0 ∧ 0 = 0) ∨ 16 + 16384 * 0 + 8192 * 0 ≤ bufC9.length)) :=
  c9_loader_bounds bufC9 0 0 (by decide) (by decide) (by decide) (by decide)
